import Mathlib

/-!
Shallow embedding of the vz-rs VM controller, covering the create workflow
(`src/command/create.rs`), the inventory command (`src/command/list.rs`), the
stop command (`src/command/stop.rs`) and the stop-escalation delegate
(`src/vm/vm_delegate.rs`).

The filesystem is modelled as an explicit state (`Fs`); the virtualization
engine and the OS are modelled as environment records whose fields hold the
outcomes of the individual engine/OS calls.  Machine integers are `Nat` with
an explicit modulus where overflow matters (the disk size is a `u64`).
The modules `config/vm_dir.rs`, `config/vm_config.rs` and
`util/exception.rs` are not among the provided sources; definitions taken
from the spec instead of those files carry a doc comment starting with
`Modelled from the spec:`.
-/

/-- Operating-system tag of a VM, from `config/vm_config.rs` as used by
`create.rs` and `list.rs` (`Os::Linux` / `Os::MacOs`). -/
inductive Os where
  | linux
  | macOS
deriving DecidableEq

/-- Persisted VM configuration, with exactly the fields populated by
`create_linux` / `create_macos` in `src/command/create.rs`.  The `sharing`
map is modelled as an association list. -/
structure VmConfig where
  os : Os
  cpu : Nat
  memory : Nat
  mac_address : String
  sharing : List (String × String)
  rosetta : Option Bool
  hardware_model : Option String
  machine_identifier : Option String
deriving DecidableEq

/-- Modelled from the spec: `util/exception.rs` is not among the provided
sources.  The error taxonomy of §7 (ValidationError, NotFoundError,
AlreadyExistsError, SerializationError, IoError, EngineError), plus a
generic constructor `other` for `Exception::new(..)` messages seen in
`stop.rs` and `list.rs`. -/
inductive Exception where
  | validationError (msg : String)
  | notFoundError (msg : String)
  | alreadyExistsError (msg : String)
  | serializationError (msg : String)
  | ioError (msg : String)
  | engineError (msg : String)
  | other (msg : String)
deriving DecidableEq

/-- Discriminator for the `alreadyExistsError` constructor. -/
def Exception.isAlreadyExists : Exception → Bool
  | Exception.alreadyExistsError _ => true
  | _ => false

/-- Whether a command result is an `AlreadyExistsError`. -/
def isAlreadyExistsResult : Except Exception Unit → Bool
  | Except.error (Exception.alreadyExistsError _) => true
  | _ => false

/-- The on-disk `config.json` file, either a well-formed serialized
`VmConfig` or a malformed document (which `load_config` rejects with a
serialization error). -/
inductive ConfigFile where
  | valid (config : VmConfig)
  | malformed
deriving DecidableEq

/-- A disk image file: logical length (`metadata.len()`) and allocated
512-byte blocks (`metadata.blocks()`); the image is sparse so the two are
independent. -/
structure DiskFile where
  len : Nat
  blocks : Nat
deriving DecidableEq

/-- Contents of one VM directory: optional `config.json` (present iff the
directory is initialized), optional disk image, `nvram.bin` marker, and the
optional `pid` marker file. -/
structure VmDirState where
  config : Option ConfigFile
  disk : Option DiskFile
  nvram : Bool
  pidFile : Option Int
deriving DecidableEq

/-- A directory is empty when it contains none of the four artifacts;
POSIX `rename(2)` may replace an empty target directory but fails with
`ENOTEMPTY` on a non-empty one. -/
def VmDirState.isEmptyDir (d : VmDirState) : Bool :=
  d.config.isNone && d.disk.isNone && !d.nvram && d.pidFile.isNone

/-- The VM home directory: the named final VM directories plus the (at most
one, for a single create run) temporary working directory. -/
structure Fs where
  homeExists : Bool
  dirs : List (String × VmDirState)
  temp : Option VmDirState
deriving DecidableEq

/-- Lookup of a named VM directory. -/
def findDir : List (String × VmDirState) → String → Option VmDirState
  | [], _ => none
  | (n, d) :: rest, name => if n = name then some d else findDir rest name

/-- Replacement of a named VM directory's contents. -/
def setDir : List (String × VmDirState) → String → VmDirState → List (String × VmDirState)
  | [], _, _ => []
  | (n, d) :: rest, name, v =>
    if n = name then (n, v) :: rest else (n, d) :: setDir rest name v

/-- Modelled from the spec: `VmDir::initialized` (`config/vm_dir.rs`, not
among the provided sources) — a directory is initialized iff `config`
exists (§3, §4.1). -/
def Fs.initializedVm (fs : Fs) (name : String) : Bool :=
  match findDir fs.dirs name with
  | some d => d.config.isSome
  | none => false

/-- Minimum hardware requirements carried by a macOS restore image
(`VZMacOSConfigurationRequirements`), as consumed by `create_macos`; the
hardware model is kept as its base64 string representation. -/
structure RestoreImageRequirements where
  minimumSupportedCPUCount : Nat
  minimumSupportedMemorySize : Nat
  hardwareModel : String
deriving DecidableEq

/-- A loaded macOS restore image (`VZMacOSRestoreImage`):
`mostFeaturefulSupportedConfiguration` is `none` when the image is not
supported by the current host. -/
structure RestoreImage where
  mostFeaturefulSupportedConfiguration : Option RestoreImageRequirements
deriving DecidableEq

/-- Environment for one run of the create workflow: outcomes of the
filesystem and engine calls made by `Create::execute`.  `ipswExists`
models `Path::exists`, `tempDirFail` a failure of
`vm_dir::create_temp_vm_dir`, `nvramResult` the firmware-store creation
(`VZEFIVariableStore` / `VZMacAuxiliaryStorage`), `restoreImage` the
outcome of `load_mac_os_restore_image`, `macAddress` the value returned by
`random_mac_address()` and `machineIdentifier` the fresh
`VZMacMachineIdentifier`. -/
structure CreateEnv where
  ipswExists : String → Bool
  tempDirFail : Bool
  nvramResult : Except Exception Unit
  restoreImage : Except Exception RestoreImage
  macAddress : String
  machineIdentifier : String

/-- The `Create` command arguments (`src/command/create.rs`); `disk_size`
is a `u64` number of (decimal) gigabytes. -/
structure Create where
  name : String
  os : Os
  disk_size : Nat
  ipsw : Option String
deriving DecidableEq

/-- `Create::validate` (`create.rs` lines 75-90): a macOS guest requires an
`ipsw` path that exists on disk; a Linux guest requires nothing. -/
def Create.validate (cmd : Create) (env : CreateEnv) : Except Exception Unit :=
  match cmd.os with
  | Os.macOS =>
    match cmd.ipsw with
    | some path =>
      if env.ipswExists path then Except.ok ()
      else Except.error (Exception.validationError ("ipsw does not exist, path=" ++ path))
    | none => Except.error (Exception.validationError "ipsw is required for macOS vm")
  | Os.linux => Except.ok ()

/-- `create_linux` (`create.rs` lines 93-119): create the firmware store,
then save a config with fixed defaults (1 CPU, 1 GiB memory), a fresh MAC
address, `rosetta = Some(false)` and no macOS-specific fields. -/
def create_linux (env : CreateEnv) (dir : VmDirState) : Except Exception VmDirState :=
  match env.nvramResult with
  | Except.error e => Except.error e
  | Except.ok _ =>
    let config : VmConfig :=
      { os := Os.linux, cpu := 1, memory := 1024 * 1024 * 1024,
        mac_address := env.macAddress, sharing := [], rosetta := some false,
        hardware_model := none, machine_identifier := none }
    Except.ok { dir with nvram := true, config := some (ConfigFile.valid config) }

/-- `create_macos` (`create.rs` lines 121-170): load the restore image,
require a supported configuration, create the auxiliary storage seeded with
the image's hardware model, then save a config whose CPU/memory are
`max(4, min cpu)` / `max(8 GiB, min memory)` and which carries the
hardware-model and machine-identifier blobs and a fresh MAC address. -/
def create_macos (env : CreateEnv) (dir : VmDirState) : Except Exception VmDirState :=
  match env.restoreImage with
  | Except.error e => Except.error e
  | Except.ok image =>
    match image.mostFeaturefulSupportedConfiguration with
    | none => Except.error (Exception.validationError "restore image is not supported by current host")
    | some requirements =>
      match env.nvramResult with
      | Except.error e => Except.error e
      | Except.ok _ =>
        let config : VmConfig :=
          { os := Os.macOS,
            cpu := max 4 requirements.minimumSupportedCPUCount,
            memory := max (8 * 1024 * 1024 * 1024) requirements.minimumSupportedMemorySize,
            mac_address := env.macAddress, sharing := [], rosetta := none,
            hardware_model := some requirements.hardwareModel,
            machine_identifier := some env.machineIdentifier }
        Except.ok { dir with nvram := true, config := some (ConfigFile.valid config) }

/-- The commit step of `Create::execute` (`create.rs` lines 67-69): a bare
`fs::rename(&temp_dir.dir, &dir.dir)` with no preceding check.  POSIX
`rename(2)` semantics: an existing empty target directory is replaced, an
existing non-empty one makes the call fail with `ENOTEMPTY`, surfaced as an
`IoError` through the `?` conversion. -/
def commit_vm (fs : Fs) (t : VmDirState) (name : String) : Except Exception Unit × Fs :=
  match findDir fs.dirs name with
  | some d =>
    if d.isEmptyDir then
      (Except.ok (), { fs with dirs := setDir fs.dirs name t, temp := none })
    else (Except.error (Exception.ioError "Directory not empty (os error 66)"), fs)
  | none => (Except.ok (), { fs with dirs := (name, t) :: fs.dirs, temp := none })

/-- 2 ^ 64, the modulus of Rust's `u64` arithmetic. -/
def u64Mod : Nat := 18446744073709551616

/-- `Create::execute` (`create.rs` lines 50-73): validate, reject an
already-initialized name with a `ValidationError`, create the temporary
directory, resize the disk to `disk_size * 1_000_000_000` bytes, run the
OS-specific initialization, and finally rename the temporary directory to
the final name.  The `self.ipsw.as_ref().unwrap()` on the macOS path is a
genuine `unwrap`: the result is `none` exactly when it would panic. -/
def Create.execute (cmd : Create) (env : CreateEnv) (fs : Fs) :
    Option (Except Exception Unit × Fs) :=
  match cmd.validate env with
  | Except.error e => some (Except.error e, fs)
  | Except.ok _ =>
    if fs.initializedVm cmd.name then
      some (Except.error (Exception.validationError ("vm already exists, name=" ++ cmd.name)), fs)
    else if env.tempDirFail then
      some (Except.error (Exception.ioError "failed to create vm home dir"), fs)
    else
      let temp1 : VmDirState :=
        { config := none,
          disk := some { len := cmd.disk_size * 1000000000 % u64Mod, blocks := 0 },
          nvram := false, pidFile := none }
      let fs1 : Fs := { fs with homeExists := true, temp := some temp1 }
      let osResult : Option (Except Exception VmDirState) :=
        match cmd.os with
        | Os.linux => some (create_linux env temp1)
        | Os.macOS =>
          match cmd.ipsw with
          | some _ => some (create_macos env temp1)
          | none => none
      match osResult with
      | none => none
      | some (Except.error e) => some (Except.error e, fs1)
      | some (Except.ok tempFinal) =>
        some (commit_vm { fs1 with temp := some tempFinal } tempFinal cmd.name)

/-- One entry of the VM home directory as seen by `List::execute`
(`src/command/list.rs`): the entry's file name, whether it is a directory,
and the directory's contents. -/
structure DirEntry where
  name : String
  isDir : Bool
  state : VmDirState
deriving DecidableEq

/-- One printed row of the `list` report: name, os, cpu, memory, allocated
disk bytes (`blocks() * 512`), logical disk bytes (`len()`), and the
running status (the numeric columns are kept as raw values; the
fixed-point rendering of `list.rs` is presentation only). -/
structure VmRow where
  name : String
  os : Os
  cpu : Nat
  memory : Nat
  diskAllocated : Nat
  diskLen : Nat
  running : Bool
deriving DecidableEq

/-- Modelled from the spec: `VmDir::pid` (`config/vm_dir.rs`, not among the
provided sources) — the `pid` marker is returned only when it is present
and the recorded process is alive (§4.1); absence or a dead process both
yield `none`. -/
def pidOf (alive : Int → Bool) (d : VmDirState) : Option Int :=
  match d.pidFile with
  | some p => if alive p then some p else none
  | none => none

/-- The per-entry loop of `List::execute` (`list.rs` lines 21-41).  Rows
are printed eagerly, so the result is the list of rows emitted before the
loop either finished (`none`) or aborted with an error propagated by `?`
from `load_config` (malformed config) or `metadata` (missing disk file);
non-directory entries and non-initialized directories are skipped. -/
def list_execute (alive : Int → Bool) : List DirEntry → List VmRow × Option Exception
  | [] => ([], none)
  | e :: es =>
    if e.isDir then
      match e.state.config with
      | some (ConfigFile.valid c) =>
        match e.state.disk with
        | some f =>
          let rest := list_execute alive es
          ({ name := e.name, os := c.os, cpu := c.cpu, memory := c.memory,
             diskAllocated := f.blocks * 512, diskLen := f.len,
             running := (pidOf alive e.state).isSome } :: rest.1, rest.2)
        | none =>
          ([], some (Exception.ioError ("No such file or directory, disk missing, name=" ++ e.name)))
      | some ConfigFile.malformed =>
        ([], some (Exception.serializationError ("malformed config, name=" ++ e.name)))
      | none => list_execute alive es
    else list_execute alive es

/-- The `Stop` command argument (`src/command/stop.rs`). -/
structure Stop where
  name : String
deriving DecidableEq

/-- Environment for one run of `Stop::execute`: whether the VM directory is
initialized, and the time-indexed contents of the `pid` marker together
with the time-indexed liveness probe (`kill`-0 semantics); query `k = 0`
is the initial `dir.pid()` in `execute`, queries `k ≥ 1` are the polls of
`wait_until_stopped`. -/
structure StopEnv where
  initialized : Bool
  pidMarker : Nat → Option Int
  alive : Nat → Int → Bool

/-- Modelled from the spec: the `k`-th evaluation of `VmDir::pid` — marker
present and process alive, otherwise `none` (§4.1). -/
def pidQuery (env : StopEnv) (k : Nat) : Option Int :=
  match env.pidMarker k with
  | some p => if env.alive k p then some p else none
  | none => none

/-- Observable actions of the `stop` command: a `libc::kill` with a signal
number, and a one-second `sleep`. -/
inductive StopAction where
  | kill (pid : Int) (signal : Nat)
  | sleepSec (seconds : Nat)
deriving DecidableEq

/-- `libc::SIGINT`. -/
def SIGINT : Nat := 2

/-- `wait_until_stopped` (`stop.rs` lines 35-46): up to `fuel` (initially
20) iterations, each sleeping one second and then checking `dir.pid()`;
succeeds as soon as the pid is gone, otherwise fails with
"failed to stop vm". -/
def wait_until_stopped (env : StopEnv) (k : Nat) :
    Nat → List StopAction × Except Exception Unit
  | 0 => ([], Except.error (Exception.other "failed to stop vm"))
  | fuel + 1 =>
    if (pidQuery env k).isNone then ([StopAction.sleepSec 1], Except.ok ())
    else
      let rest := wait_until_stopped env (k + 1) fuel
      (StopAction.sleepSec 1 :: rest.1, rest.2)

/-- `Stop::execute` (`stop.rs` lines 18-32): fail if the VM is not
initialized, fail with "vm not running" if `dir.pid()` is `none`, else
send `SIGINT` to the recorded pid once and poll for up to 20 seconds.
The first component is the trace of observable actions. -/
def Stop.execute (cmd : Stop) (env : StopEnv) : List StopAction × Except Exception Unit :=
  if env.initialized = false then
    ([], Except.error (Exception.other ("vm not initialized, name=" ++ cmd.name)))
  else
    match pidQuery env 0 with
    | none => ([], Except.error (Exception.other ("vm not running, name=" ++ cmd.name)))
    | some p =>
      let rest := wait_until_stopped env 1 20
      (StopAction.kill p SIGINT :: rest.1, rest.2)

/-- The running guest as the stop-escalation code observes it
(`src/vm/vm_delegate.rs`): whether the engine reports cooperative stop
support (`canRequestStop`), the outcome of `requestStopWithError`, whether
the guest is in a stoppable state (`canStop`), and the error delivered to
the `stopWithCompletionHandler` completion (`none` = success). -/
structure VzVirtualMachine where
  canRequestStop : Bool
  requestStopError : Option String
  canStop : Bool
  stopError : Option String
deriving DecidableEq

/-- Timed observable events of the stop escalation: the cooperative stop
request, the forced-stop attempt (entry into `force_stop_vm`), and a
`process::exit` with the given status code. -/
inductive VmEvent where
  | requestStop
  | forceStop
  | exited (code : Nat)
deriving DecidableEq

/-- `force_stop_vm` (`vm_delegate.rs` lines 108-129) entered at time `t`:
if the guest is stoppable, issue `stopWithCompletionHandler` and exit 0 on
success or 1 on error; if not stoppable, exit 1 immediately. -/
def force_stop_vm (vm : VzVirtualMachine) (t : Nat) : List (Nat × VmEvent) :=
  (t, VmEvent.forceStop) ::
    (if vm.canStop then
      match vm.stopError with
      | none => [(t, VmEvent.exited 0)]
      | some _ => [(t, VmEvent.exited 1)]
    else [(t, VmEvent.exited 1)])

/-- `stop_vm` together with `request_stop_vm` (`vm_delegate.rs` lines
83-106), under the schedule in which the guest never acknowledges the
cooperative stop (so the armed 15-second `exec_after` timer always fires):
if the engine reports cooperative-stop support, `requestStopWithError` is
issued at time 0 — on error the process exits 1, on success
`force_stop_vm` is scheduled for time 15; without cooperative-stop support
`force_stop_vm` runs immediately at time 0.  A cooperative acknowledgement
would instead arrive through the delegate callback
`guest_did_stop_virtual_machine`, modelled separately. -/
def stop_vm (vm : VzVirtualMachine) : List (Nat × VmEvent) :=
  if vm.canRequestStop then
    match vm.requestStopError with
    | some _ => [(0, VmEvent.requestStop), (0, VmEvent.exited 1)]
    | none => (0, VmEvent.requestStop) :: force_stop_vm vm 15
  else force_stop_vm vm 0

/-- The timestamps at which a forced stop is issued in a trace. -/
def forceStopTimes : List (Nat × VmEvent) → List Nat
  | [] => []
  | (t, VmEvent.forceStop) :: rest => t :: forceStopTimes rest
  | _ :: rest => forceStopTimes rest

/-- Delegate callback `guestDidStopVirtualMachine` (`vm_delegate.rs` lines
39-43): a successful cooperative stop exits the supervising process with
status 0. -/
def guest_did_stop_virtual_machine : Nat := 0

/-- Delegate callback `virtualMachine:didStopWithError:` (`vm_delegate.rs`
lines 45-49): a guest stop due to an error exits the supervising process
with status 1. -/
def virtual_machine_did_stop_with_error : Nat := 1

/-- `Create::validate` only ever reports a `ValidationError`. -/
theorem validate_error_is_validation (cmd : Create) (env : CreateEnv) (e : Exception)
    (h : cmd.validate env = Except.error e) : ∃ m, e = Exception.validationError m := by
  unfold Create.validate at h
  split at h
  · split at h
    · split at h
      · exact absurd h (by simp)
      · exact ⟨_, (Except.error.injEq _ _).mp h.symm⟩
    · exact ⟨_, (Except.error.injEq _ _).mp h.symm⟩
  · exact absurd h (by simp)

/-- An initialized directory contains `config`, hence is not empty. -/
theorem initialized_not_empty (fs : Fs) (name : String) (d : VmDirState)
    (hfind : findDir fs.dirs name = some d) (hinit : fs.initializedVm name = true) :
    d.isEmptyDir = false := by
  have h2 : d.config.isSome = true := by
    unfold Fs.initializedVm at hinit
    rw [hfind] at hinit
    exact hinit
  unfold VmDirState.isEmptyDir
  cases hc : d.config with
  | none => rw [hc] at h2; simp at h2
  | some c => simp [hc]

/-- A VM directory that is already initialized with a valid Linux config,
used as the concrete pre-existing directory in the commit counterexample. -/
def cexExistingDir : VmDirState :=
  { config := some (ConfigFile.valid
      { os := Os.linux, cpu := 1, memory := 1073741824,
        mac_address := "06:11:22:33:44:55", sharing := [], rosetta := some false,
        hardware_model := none, machine_identifier := none }),
    disk := some { len := 10000000000, blocks := 8 }, nvram := true, pidFile := none }

/-- A fully-built temporary directory about to be committed. -/
def cexTempDir : VmDirState :=
  { config := some (ConfigFile.valid
      { os := Os.linux, cpu := 1, memory := 1073741824,
        mac_address := "06:aa:bb:cc:dd:ee", sharing := [], rosetta := some false,
        hardware_model := none, machine_identifier := none }),
    disk := some { len := 50000000000, blocks := 0 }, nvram := true, pidFile := none }

/-- A home directory in which the VM name "a" is already initialized when
the commit step runs. -/
def cexFs : Fs := { homeExists := true, dirs := [("a", cexExistingDir)], temp := some cexTempDir }

/-- C1, counterexample: with VM "a" already initialized at commit time, the
commit step (`create.rs` lines 67-69, a bare `fs::rename`) fails with an
`IoError` from the rename, not with `AlreadyExistsError`, and performs no
initialization check before the rename. -/
theorem commit_already_initialized_cex :
    cexFs.initializedVm "a" = true ∧
    commit_vm cexFs cexTempDir "a" =
      (Except.error (Exception.ioError "Directory not empty (os error 66)"), cexFs) ∧
    isAlreadyExistsResult (commit_vm cexFs cexTempDir "a").1 = false :=
  ⟨rfl, rfl, rfl⟩

/-- C1, amended: the commit step performs no initialization check and never
reports `AlreadyExistsError`; whenever the target VM name is initialized at
commit time, the rename itself fails with an `IoError` (non-empty target
directory) and the home directory is left unchanged. -/
theorem commit_already_initialized_ioerror (fs : Fs) (t : VmDirState) (name : String)
    (hinit : fs.initializedVm name = true) :
    commit_vm fs t name =
      (Except.error (Exception.ioError "Directory not empty (os error 66)"), fs) := by
  unfold commit_vm
  cases hfind : findDir fs.dirs name with
  | none =>
    exfalso
    unfold Fs.initializedVm at hinit
    rw [hfind] at hinit
    simp at hinit
  | some d =>
    have hne := initialized_not_empty fs name d hfind hinit
    simp [hne]

/-- C1, witness for the amended theorem at the concrete commit state. -/
theorem commit_already_initialized_ioerror_witness :
    commit_vm cexFs cexTempDir "a" =
      (Except.error (Exception.ioError "Directory not empty (os error 66)"), cexFs) :=
  commit_already_initialized_ioerror cexFs cexTempDir "a" rfl

/-- C3: running `create` when a VM with the requested name is already
initialized fails with a `ValidationError` (never `AlreadyExistsError`),
and the filesystem — in particular the existing VM's config — is returned
unchanged, so the rejection precedes every filesystem mutation of the
workflow. -/
theorem create_rejects_initialized (cmd : Create) (env : CreateEnv) (fs : Fs)
    (hinit : fs.initializedVm cmd.name = true) :
    ∃ msg, Create.execute cmd env fs = some (Except.error (Exception.validationError msg), fs) := by
  unfold Create.execute
  cases hv : cmd.validate env with
  | error e =>
    obtain ⟨m, rfl⟩ := validate_error_is_validation cmd env e hv
    exact ⟨m, rfl⟩
  | ok u =>
    refine ⟨"vm already exists, name=" ++ cmd.name, ?_⟩
    simp [hinit]

/-- C3, witness: a second `create` of the Linux VM "a" is rejected with a
`ValidationError` and leaves the filesystem untouched. -/
theorem create_rejects_initialized_witness :
    ∃ msg,
      Create.execute { name := "a", os := Os.linux, disk_size := 50, ipsw := none }
        { ipswExists := fun _ => false, tempDirFail := false,
          nvramResult := Except.ok (), restoreImage := Except.error (Exception.engineError "unused"),
          macAddress := "06:11:22:33:44:55", machineIdentifier := "mid" }
        cexFs =
      some (Except.error (Exception.validationError msg), cexFs) :=
  create_rejects_initialized _ _ cexFs rfl

/-- Restore-image requirements of the sample image: 2 CPUs, 4 GiB. -/
def sampleRequirements : RestoreImageRequirements :=
  { minimumSupportedCPUCount := 2, minimumSupportedMemorySize := 4294967296,
    hardwareModel := "hwmodel" }

/-- The sample restore image, supported by the host. -/
def sampleImage : RestoreImage :=
  { mostFeaturefulSupportedConfiguration := some sampleRequirements }

/-- An engine environment in which every call succeeds, with a restore
image whose minimum configuration is 2 CPUs and 4 GiB of memory. -/
def sampleEnv : CreateEnv :=
  { ipswExists := fun _ => true, tempDirFail := false,
    nvramResult := Except.ok (),
    restoreImage := Except.ok sampleImage,
    macAddress := "06:00:11:22:33:44", machineIdentifier := "machine-id" }

/-- An empty VM home directory. -/
def emptyFs : Fs := { homeExists := false, dirs := [], temp := none }

/-- C10: if `Create::validate` succeeds for a macOS command then `ipsw` is
present, the `self.ipsw.as_ref().unwrap()` in `Create::execute` can never
panic (the embedding yields `none` exactly at a panicking unwrap, and it
never does), and a validation failure is returned with the filesystem
completely unchanged. -/
theorem create_validate_ipsw_safe (cmd : Create) (env : CreateEnv) (fs : Fs) :
    (cmd.validate env = Except.ok () → cmd.os = Os.macOS → cmd.ipsw.isSome = true) ∧
    (Create.execute cmd env fs).isSome = true ∧
    (∀ e, cmd.validate env = Except.error e →
      Create.execute cmd env fs = some (Except.error e, fs)) := by
  refine ⟨?_, ?_, ?_⟩
  · intro hok hos
    unfold Create.validate at hok
    rw [hos] at hok
    cases hip : cmd.ipsw with
    | none => rw [hip] at hok; simp at hok
    | some p => rfl
  · unfold Create.execute
    cases hv : cmd.validate env with
    | error e => rfl
    | ok u =>
      cases hinit : fs.initializedVm cmd.name with
      | true => simp
      | false =>
        cases htmp : env.tempDirFail with
        | true => simp
        | false =>
          cases hos : cmd.os with
          | linux =>
            simp only [Bool.false_eq_true, if_false]
            split <;> simp_all
          | macOS =>
            cases hip : cmd.ipsw with
            | some p =>
              simp only [Bool.false_eq_true, if_false]
              split <;> simp_all
            | none =>
              exfalso
              unfold Create.validate at hv
              rw [hos, hip] at hv
              simp at hv
  · intro e hv
    unfold Create.execute
    rw [hv]

/-- C10, witness: a macOS create with no `ipsw` is stopped by validation,
returning the validation error with the filesystem untouched. -/
theorem create_validate_ipsw_safe_witness :
    Create.execute { name := "m", os := Os.macOS, disk_size := 50, ipsw := none }
      sampleEnv emptyFs =
    some (Except.error (Exception.validationError "ipsw is required for macOS vm"), emptyFs) :=
  (create_validate_ipsw_safe
    { name := "m", os := Os.macOS, disk_size := 50, ipsw := none } sampleEnv emptyFs).2.2
    (Exception.validationError "ipsw is required for macOS vm") rfl

/-- C6: whenever `create_macos` succeeds, the persisted config's CPU count
is `max 4 (image minimum)` (hence at least 4), its memory is
`max 8 GiB (image minimum)` (hence at least 8 GiB = 8589934592 bytes), and
it carries the image's hardware-model blob, the freshly generated machine
identifier and the freshly generated MAC address. -/
theorem create_macos_config_floor (env : CreateEnv) (dir d2 : VmDirState) (c : VmConfig)
    (hrun : create_macos env dir = Except.ok d2)
    (hc : d2.config = some (ConfigFile.valid c)) :
    ∃ image req,
      env.restoreImage = Except.ok image ∧
      image.mostFeaturefulSupportedConfiguration = some req ∧
      c.cpu = max 4 req.minimumSupportedCPUCount ∧ 4 ≤ c.cpu ∧
      c.memory = max 8589934592 req.minimumSupportedMemorySize ∧ 8589934592 ≤ c.memory ∧
      c.hardware_model = some req.hardwareModel ∧
      c.machine_identifier = some env.machineIdentifier ∧
      c.mac_address = env.macAddress := by
  unfold create_macos at hrun
  split at hrun
  · simp at hrun
  next image heqImage =>
    split at hrun
    · simp at hrun
    next req heqReq =>
      split at hrun
      · simp at hrun
      next u heqNv =>
        simp only [Except.ok.injEq] at hrun
        rw [← hrun] at hc
        simp only [Option.some.injEq, ConfigFile.valid.injEq] at hc
        refine ⟨image, req, heqImage, heqReq, ?_⟩
        rw [← hc]
        refine ⟨rfl, Nat.le_max_left 4 _, ?_, ?_, rfl, rfl, rfl⟩
        · norm_num
        · have h8 : (8589934592 : Nat) = 8 * 1024 * 1024 * 1024 := by norm_num
          rw [h8]
          exact Nat.le_max_left _ _

/-- A freshly allocated temporary directory after the disk resize. -/
def blankTempDir : VmDirState :=
  { config := none, disk := some { len := 50000000000, blocks := 0 },
    nvram := false, pidFile := none }

/-- The config produced for the sample macOS image: both floors apply. -/
def macSampleConfig : VmConfig :=
  { os := Os.macOS, cpu := 4, memory := 8589934592, mac_address := "06:00:11:22:33:44",
    sharing := [], rosetta := none, hardware_model := some "hwmodel",
    machine_identifier := some "machine-id" }

/-- The temporary directory after `create_macos` on the sample image. -/
def macTempDirDone : VmDirState :=
  { config := some (ConfigFile.valid macSampleConfig),
    disk := some { len := 50000000000, blocks := 0 }, nvram := true, pidFile := none }

/-- C6, witness: the sample image requests 2 CPUs and 4 GiB, and the
persisted config gets 4 CPUs and 8 GiB. -/
theorem create_macos_config_floor_witness :
    ∃ image req,
      sampleEnv.restoreImage = Except.ok image ∧
      image.mostFeaturefulSupportedConfiguration = some req ∧
      macSampleConfig.cpu = max 4 req.minimumSupportedCPUCount ∧ 4 ≤ macSampleConfig.cpu ∧
      macSampleConfig.memory = max 8589934592 req.minimumSupportedMemorySize ∧
      8589934592 ≤ macSampleConfig.memory ∧
      macSampleConfig.hardware_model = some req.hardwareModel ∧
      macSampleConfig.machine_identifier = some sampleEnv.machineIdentifier ∧
      macSampleConfig.mac_address = sampleEnv.macAddress :=
  create_macos_config_floor sampleEnv blankTempDir macTempDirDone macSampleConfig rfl rfl

/-- Updating a present key makes lookup return the new contents. -/
theorem findDir_setDir (l : List (String × VmDirState)) (name : String) (v : VmDirState)
    (h : (findDir l name).isSome = true) : findDir (setDir l name v) name = some v := by
  induction l with
  | nil => simp [findDir] at h
  | cons hd tl ih =>
    obtain ⟨n, d⟩ := hd
    by_cases hn : n = name
    · simp [findDir, setDir, hn]
    · simp only [findDir, setDir, hn, if_false, if_neg hn] at h ⊢
      exact ih h

/-- `create_linux` never touches the disk image. -/
theorem create_linux_disk (env : CreateEnv) (t t2 : VmDirState)
    (h : create_linux env t = Except.ok t2) : t2.disk = t.disk := by
  unfold create_linux at h
  split at h
  · simp at h
  · simp only [Except.ok.injEq] at h
    rw [← h]

/-- `create_macos` never touches the disk image. -/
theorem create_macos_disk (env : CreateEnv) (t t2 : VmDirState)
    (h : create_macos env t = Except.ok t2) : t2.disk = t.disk := by
  unfold create_macos at h
  split at h
  · simp at h
  · split at h
    · simp at h
    · split at h
      · simp at h
      · simp only [Except.ok.injEq] at h
        rw [← h]

/-- A successful commit makes the committed directory the one found under
the final VM name. -/
theorem commit_ok_find (fsA : Fs) (t : VmDirState) (name : String) (fs2 : Fs)
    (h : commit_vm fsA t name = (Except.ok (), fs2)) :
    findDir fs2.dirs name = some t := by
  unfold commit_vm at h
  split at h
  next d hfind =>
    split at h
    · simp only [Prod.mk.injEq] at h
      rw [← h.2]
      exact findDir_setDir fsA.dirs name t (by rw [hfind]; rfl)
    · simp at h
  next hfind =>
    simp only [Prod.mk.injEq] at h
    rw [← h.2]
    simp [findDir]

/-- C7: every successful create sizes the committed VM's disk image to a
logical length of exactly `disk_size * 1_000_000_000` bytes (decimal
gigabytes), for every disk size whose byte count fits in a `u64`. -/
theorem create_disk_size_exact (cmd : Create) (env : CreateEnv) (fs fs2 : Fs)
    (hrun : Create.execute cmd env fs = some (Except.ok (), fs2))
    (hov : cmd.disk_size * 1000000000 < u64Mod) :
    ∃ d f, findDir fs2.dirs cmd.name = some d ∧ d.disk = some f ∧
      f.len = cmd.disk_size * 1000000000 := by
  unfold Create.execute at hrun
  split at hrun
  · simp at hrun
  · split at hrun
    · simp at hrun
    · split at hrun
      · simp at hrun
      · split at hrun
        next hOs =>
          dsimp only at hrun
          split at hrun
          · simp at hrun
          · simp at hrun
          · rename_i osR tempFinal heqOs
            simp only [Option.some.injEq] at heqOs
            have hdiskT : tempFinal.disk =
                some { len := cmd.disk_size * 1000000000 % u64Mod, blocks := 0 } :=
              create_linux_disk env _ tempFinal heqOs
            simp only [Option.some.injEq] at hrun
            exact ⟨tempFinal, { len := cmd.disk_size * 1000000000 % u64Mod, blocks := 0 },
              commit_ok_find _ tempFinal cmd.name fs2 hrun, hdiskT, Nat.mod_eq_of_lt hov⟩
        next hOs =>
          split at hrun
          next p hIp =>
            dsimp only at hrun
            split at hrun
            · simp at hrun
            · simp at hrun
            · rename_i osR tempFinal heqOs
              simp only [Option.some.injEq] at heqOs
              have hdiskT : tempFinal.disk =
                  some { len := cmd.disk_size * 1000000000 % u64Mod, blocks := 0 } :=
                create_macos_disk env _ tempFinal heqOs
              simp only [Option.some.injEq] at hrun
              exact ⟨tempFinal, { len := cmd.disk_size * 1000000000 % u64Mod, blocks := 0 },
                commit_ok_find _ tempFinal cmd.name fs2 hrun, hdiskT, Nat.mod_eq_of_lt hov⟩
          next hIp => simp at hrun

/-- The config written for a sample Linux VM. -/
def linuxSampleConfig : VmConfig :=
  { os := Os.linux, cpu := 1, memory := 1073741824, mac_address := "06:00:11:22:33:44",
    sharing := [], rosetta := some false, hardware_model := none, machine_identifier := none }

/-- The finished temporary directory of the sample Linux create. -/
def linuxTempDirDone : VmDirState :=
  { config := some (ConfigFile.valid linuxSampleConfig),
    disk := some { len := 50000000000, blocks := 0 }, nvram := true, pidFile := none }

/-- The home directory after the sample Linux create of "x" commits. -/
def linuxDoneFs : Fs :=
  { homeExists := true, dirs := [("x", linuxTempDirDone)], temp := none }

/-- C7, witness: creating a Linux VM with `--disk-size 50` yields a disk of
logical length exactly 50,000,000,000 bytes. -/
theorem create_disk_size_exact_witness :
    ∃ d f, findDir linuxDoneFs.dirs "x" = some d ∧ d.disk = some f ∧ f.len = 50000000000 :=
  create_disk_size_exact { name := "x", os := Os.linux, disk_size := 50, ipsw := none }
    sampleEnv emptyFs linuxDoneFs rfl (by decide)

/-- Liveness probe reporting every process as dead. -/
def aliveNone : Int → Bool := fun _ => false

/-- An initialized home-directory entry whose persisted config is
malformed. -/
def badEntry : DirEntry :=
  { name := "x", isDir := true,
    state := { config := some ConfigFile.malformed, disk := none, nvram := true, pidFile := none } }

/-- A valid persisted config for a partial (disk-less) directory. -/
def partialEntryConfig : VmConfig :=
  { os := Os.linux, cpu := 2, memory := 2147483648, mac_address := "06:77:88:99:aa:bb",
    sharing := [], rosetta := some false, hardware_model := none, machine_identifier := none }

/-- An initialized but partial entry: its config loads fine, but the disk
image file is missing. -/
def partialEntry : DirEntry :=
  { name := "z", isDir := true,
    state := { config := some (ConfigFile.valid partialEntryConfig), disk := none,
               nvram := true, pidFile := none } }

/-- C2, counterexample: a single initialized entry with a malformed config
makes `list` fail with the propagated serialization error (the `?` on
`load_config` in `list.rs` line 27), and a single initialized but partial
entry — valid config, missing disk file — makes `list` fail with the
propagated I/O error (the `?` on `metadata` in `list.rs` line 31); neither
is silently skipped. -/
theorem list_malformed_config_cex :
    list_execute aliveNone [badEntry] =
      ([], some (Exception.serializationError ("malformed config, name=" ++ "x"))) ∧
    list_execute aliveNone [partialEntry] =
      ([], some (Exception.ioError ("No such file or directory, disk missing, name=" ++ "z"))) :=
  ⟨rfl, rfl⟩

/-- C2, amended: `list` silently skips non-directory entries and
non-initialized directories, but an initialized entry whose persisted
config is malformed aborts the listing with that entry's serialization
error, and an initialized entry whose config is valid but whose disk file
is missing aborts the listing with that entry's I/O error — neither is
skipped. -/
theorem list_skip_and_propagate (alive : Int → Bool) (e : DirEntry) (es : List DirEntry) :
    (e.isDir = false → list_execute alive (e :: es) = list_execute alive es) ∧
    (e.state.config = none → list_execute alive (e :: es) = list_execute alive es) ∧
    (e.isDir = true → e.state.config = some ConfigFile.malformed →
      list_execute alive (e :: es) =
        ([], some (Exception.serializationError ("malformed config, name=" ++ e.name)))) ∧
    (∀ c, e.isDir = true → e.state.config = some (ConfigFile.valid c) → e.state.disk = none →
      list_execute alive (e :: es) =
        ([], some (Exception.ioError ("No such file or directory, disk missing, name=" ++ e.name)))) := by
  refine ⟨?_, ?_, ?_, ?_⟩
  · intro h
    simp only [list_execute, h]
    simp
  · intro h
    cases hd : e.isDir with
    | false => simp only [list_execute, hd]; simp
    | true => simp only [list_execute, hd, h]; simp
  · intro h1 h2
    simp only [list_execute, h1, h2]
    simp
  · intro c h1 h2 h3
    simp only [list_execute, h1, h2, h3]
    simp

/-- A second malformed entry, used to exercise the amended theorem. -/
def badEntry2 : DirEntry :=
  { name := "y", isDir := true,
    state := { config := some ConfigFile.malformed, disk := none, nvram := false, pidFile := none } }

/-- A second partial entry (valid config, missing disk), used to exercise
the amended theorem. -/
def partialEntry2 : DirEntry :=
  { name := "w", isDir := true,
    state := { config := some (ConfigFile.valid partialEntryConfig), disk := none,
               nvram := false, pidFile := none } }

/-- C2, witness for the amended theorem: the malformed entry "y" aborts the
listing with its serialization error, and the disk-less entry "w" aborts
it with its I/O error. -/
theorem list_skip_and_propagate_witness :
    list_execute aliveNone [badEntry2] =
      ([], some (Exception.serializationError ("malformed config, name=" ++ badEntry2.name))) ∧
    list_execute aliveNone [partialEntry2] =
      ([], some (Exception.ioError ("No such file or directory, disk missing, name=" ++ partialEntry2.name))) :=
  ⟨(list_skip_and_propagate aliveNone badEntry2 []).2.2.1 rfl rfl,
   (list_skip_and_propagate aliveNone partialEntry2 []).2.2.2 partialEntryConfig rfl rfl rfl⟩

/-- The polling loop of `stop` only ever sleeps: every action in its trace
is a one-second sleep. -/
theorem wait_trace_only_sleeps (env : StopEnv) (k fuel : Nat) :
    ∀ a ∈ (wait_until_stopped env k fuel).1, a = StopAction.sleepSec 1 := by
  induction fuel generalizing k with
  | zero => intro a ha; simp [wait_until_stopped] at ha
  | succ n ih =>
    intro a ha
    unfold wait_until_stopped at ha
    split at ha
    · simp at ha; exact ha
    · dsimp only at ha
      rw [List.mem_cons] at ha
      rcases ha with h1 | h2
      · exact h1
      · exact ih (k + 1) a h2

/-- C8: `stop` on an initialized VM whose pid marker is absent, or whose
recorded process is not alive, fails at once with the "vm not running"
error; the empty action trace shows that no sleep and no polling interval
happens. -/
theorem stop_not_running_immediate (cmd : Stop) (env : StopEnv)
    (hinit : env.initialized = true)
    (hnot : env.pidMarker 0 = none ∨ ∃ p, env.pidMarker 0 = some p ∧ env.alive 0 p = false) :
    Stop.execute cmd env =
      ([], Except.error (Exception.other ("vm not running, name=" ++ cmd.name))) := by
  have hq : pidQuery env 0 = none := by
    unfold pidQuery
    rcases hnot with h | ⟨p, hp, ha⟩
    · rw [h]
    · rw [hp]
      dsimp only
      rw [ha]
      simp
  unfold Stop.execute
  rw [hinit, hq]
  rfl

/-- Environment of an initialized VM with no pid marker at all. -/
def stopEnvNotRunning : StopEnv :=
  { initialized := true, pidMarker := fun _ => none, alive := fun _ _ => false }

/-- C8, witness: with no pid marker, `stop a` fails immediately. -/
theorem stop_not_running_immediate_witness :
    Stop.execute { name := "a" } stopEnvNotRunning =
      ([], Except.error (Exception.other ("vm not running, name=" ++ "a"))) :=
  stop_not_running_immediate { name := "a" } stopEnvNotRunning rfl (Or.inl rfl)

/-- C9: `stop` on an initialized VM with a live recorded process sends
`SIGINT` to that pid exactly once — it is the first action of the trace,
and everything after it is a sleep of the polling loop. -/
theorem stop_sends_sigint_once (cmd : Stop) (env : StopEnv) (p : Int)
    (hinit : env.initialized = true) (hp : pidQuery env 0 = some p) :
    ∃ tr r, Stop.execute cmd env = (StopAction.kill p SIGINT :: tr, r) ∧
      ∀ a ∈ tr, a = StopAction.sleepSec 1 := by
  unfold Stop.execute
  rw [hinit, hp]
  exact ⟨(wait_until_stopped env 1 20).1, (wait_until_stopped env 1 20).2, rfl,
    wait_trace_only_sleeps env 1 20⟩

/-- Environment of an initialized VM whose recorded process 7 is alive at
the initial query and gone at the first poll. -/
def stopEnvRunning : StopEnv :=
  { initialized := true, pidMarker := fun k => if k = 0 then some 7 else none,
    alive := fun _ _ => true }

/-- C9, witness: pid 7 receives `SIGINT` once, before the polling loop. -/
theorem stop_sends_sigint_once_witness :
    ∃ tr r, Stop.execute { name := "b" } stopEnvRunning = (StopAction.kill 7 SIGINT :: tr, r) ∧
      ∀ a ∈ tr, a = StopAction.sleepSec 1 :=
  stop_sends_sigint_once { name := "b" } stopEnvRunning 7 rfl rfl

/-- Each forced-stop run issues exactly one forced stop, at its entry
time. -/
theorem forceStopTimes_force_stop_vm (vm : VzVirtualMachine) (t : Nat) :
    forceStopTimes (force_stop_vm vm t) = [t] := by
  unfold force_stop_vm
  cases hcs : vm.canStop with
  | false => simp [forceStopTimes]
  | true =>
    cases hse : vm.stopError with
    | none => simp [forceStopTimes]
    | some msg => simp [forceStopTimes]

/-- A guest that supports cooperative stop but whose stop request call
itself fails. -/
def vmReqFail : VzVirtualMachine :=
  { canRequestStop := true, requestStopError := some "request declined",
    canStop := true, stopError := none }

/-- C4, counterexample: for this guest the engine reports cooperative-stop
support, yet no 15-unit escalation timer is armed and no forced stop is
ever issued — the failing `requestStopWithError` makes the process exit
with status 1 instead. -/
theorem stop_vm_escalation_cex :
    vmReqFail.canRequestStop = true ∧
    stop_vm vmReqFail = [(0, VmEvent.requestStop), (0, VmEvent.exited 1)] ∧
    forceStopTimes (stop_vm vmReqFail) = [] :=
  ⟨rfl, rfl, rfl⟩

/-- C4, amended: on a stop of a running guest, if the engine reports
cooperative-stop support and the stop request call succeeds, the request
is issued at time 0, the 15-unit escalation timer is armed, and (for a
guest that never acknowledges) the forced stop is issued exactly at 15
units — at or after the timeout and never before; if the request call
itself fails, the process exits with status 1 and no forced stop is
issued; if cooperative stop is unsupported, the timer is skipped and the
forced stop is issued immediately at time 0. -/
theorem stop_vm_escalation (vm : VzVirtualMachine) :
    (vm.canRequestStop = true → vm.requestStopError = none →
      stop_vm vm = (0, VmEvent.requestStop) :: force_stop_vm vm 15 ∧
      forceStopTimes (stop_vm vm) = [15]) ∧
    (∀ msg, vm.canRequestStop = true → vm.requestStopError = some msg →
      stop_vm vm = [(0, VmEvent.requestStop), (0, VmEvent.exited 1)]) ∧
    (vm.canRequestStop = false →
      stop_vm vm = force_stop_vm vm 0 ∧ forceStopTimes (stop_vm vm) = [0]) := by
  refine ⟨?_, ?_, ?_⟩
  · intro h1 h2
    have hs : stop_vm vm = (0, VmEvent.requestStop) :: force_stop_vm vm 15 := by
      unfold stop_vm
      rw [h1, h2]
      rfl
    have hskip : forceStopTimes ((0, VmEvent.requestStop) :: force_stop_vm vm 15) =
        forceStopTimes (force_stop_vm vm 15) := rfl
    exact ⟨hs, by rw [hs, hskip, forceStopTimes_force_stop_vm]⟩
  · intro msg h1 h2
    unfold stop_vm
    rw [h1, h2]
    rfl
  · intro h1
    have hs : stop_vm vm = force_stop_vm vm 0 := by
      unfold stop_vm
      rw [h1]
      rfl
    exact ⟨hs, by rw [hs, forceStopTimes_force_stop_vm]⟩

/-- A cooperative guest whose stop request succeeds. -/
def vmCoop : VzVirtualMachine :=
  { canRequestStop := true, requestStopError := none, canStop := true, stopError := none }

/-- C4, witness for the amended theorem: the cooperative guest gets the
request at time 0 and the forced stop exactly at the 15-unit timeout. -/
theorem stop_vm_escalation_witness :
    stop_vm vmCoop = (0, VmEvent.requestStop) :: force_stop_vm vmCoop 15 ∧
    forceStopTimes (stop_vm vmCoop) = [15] :=
  (stop_vm_escalation vmCoop).1 rfl rfl

/-- C5: a forced stop on a guest the engine reports as not stoppable makes
the supervising process exit with the failure status 1 (non-zero); a
successful forced stop exits with status 0, and a successful cooperative
stop — the `guestDidStopVirtualMachine` delegate callback — also exits
with status 0. -/
theorem stop_exit_status (vm : VzVirtualMachine) (t : Nat) :
    (vm.canStop = false →
      force_stop_vm vm t = [(t, VmEvent.forceStop), (t, VmEvent.exited 1)]) ∧
    (vm.canStop = true → vm.stopError = none →
      force_stop_vm vm t = [(t, VmEvent.forceStop), (t, VmEvent.exited 0)]) ∧
    guest_did_stop_virtual_machine = 0 := by
  refine ⟨?_, ?_, rfl⟩
  · intro h
    unfold force_stop_vm
    rw [h]
    rfl
  · intro h1 h2
    unfold force_stop_vm
    rw [h1, h2]
    rfl

/-- A guest that is not in a stoppable state. -/
def vmNotStoppable : VzVirtualMachine :=
  { canRequestStop := false, requestStopError := none, canStop := false, stopError := none }

/-- C5, witness: the unstoppable guest makes the process exit with status
1 at the forced-stop attempt. -/
theorem stop_exit_status_witness :
    force_stop_vm vmNotStoppable 3 = [(3, VmEvent.forceStop), (3, VmEvent.exited 1)] :=
  (stop_exit_status vmNotStoppable 3).1 rfl
